import Mathlib

/-
Shallow embedding of the godaddy-dynamic-ip repository (src/main.rs,
src/dns_record_manager.rs): configuration loading, the GoDaddy DNS client
operations, and the reconciliation cycle `run`, together with proofs of the
specification's testable properties.

Network effects are modelled by passing the outcome of each outbound HTTP
interaction explicitly: an `HttpResponse` describes what the provider sent
back (status success flag, the result of reading the body as text, and the
result of parsing the body as a JSON list of records), and `Except String
HttpResponse` describes a send that may fail at the transport level.
-/

namespace GodaddyDynamicIp

/-- Mirrors `struct GodaddyConfig` (dns_record_manager.rs lines 8-13). -/
structure GodaddyConfig where
  api_key : String
  api_secret : String
  base_path : String
  record_name : String
deriving DecidableEq, Repr

/-- Mirrors `enum GodaddyConfigError` (lines 15-19). -/
inductive GodaddyConfigError where
  | MissingEnvironmentVariables
deriving DecidableEq, Repr

/-- The environment variables consulted by `GodaddyConfig::load`: `none`
models an unset variable (where `std::env::var` returns `Err`), `some v`
a set variable with value `v` (where `std::env::var` returns `Ok(v)`). -/
structure EnvVars where
  api_key : Option String
  api_secret : Option String
  base_path : Option String
  record_name : Option String
deriving DecidableEq, Repr

/-- Mirrors `GodaddyConfig::load` (lines 22-37): the four-way match on the
`env::var` results succeeds exactly when all four variables are set; the
values themselves are not inspected. -/
def GodaddyConfig.load (env : EnvVars) : Except GodaddyConfigError GodaddyConfig :=
  match env.api_key, env.api_secret, env.base_path, env.record_name with
  | some k, some s, some p, some n =>
    .ok { api_secret := s, api_key := k, base_path := p, record_name := n }
  | _, _, _, _ => .error .MissingEnvironmentVariables

/-- Whether `GodaddyConfig::load` returns `Ok` on the given environment. -/
def loadSucceeds (env : EnvVars) : Bool :=
  match GodaddyConfig.load env with
  | .ok _ => true
  | .error _ => false

/-- Mirrors `struct DnsRecord` (lines 40-43): only the `data` field (the
published IP address string) is deserialized. -/
structure DnsRecord where
  data : String
deriving DecidableEq, Repr

/-- Mirrors `enum DnsRecordManagerError` (lines 45-57). The `anyhow::Error`
payloads are modelled by their message strings. -/
inductive DnsRecordManagerError where
  | UnableToGetPublicIp
  | RequestFail (e : String)
  | FailToParseResponse (e : String)
  | UpdateRecordError (e : String)
  | Unexpected (s : String)
deriving DecidableEq, Repr

deriving instance DecidableEq for Except

/-- The provider's reply to one HTTP request, as observed through the
`reqwest` calls the code makes: `success` is `response.status().is_success()`,
`textResult` is the outcome of `response.text().await` (where `none` models a
body-read failure), and `jsonResult` the outcome of
`response.json::<Vec<DnsRecord>>().await` (where `.error m` models a
deserialization failure with message `m`). -/
structure HttpResponse where
  success : Bool
  textResult : Option String
  jsonResult : Except String (List DnsRecord)
deriving DecidableEq, Repr

/-- Mirrors `get_arecord_detail` (lines 98-137), as a function of the
transport outcome of its GET request: a send failure becomes `RequestFail`;
a non-success status becomes `Unexpected ("Error response from Godaddy: "
++ body)` (or `Unexpected "Reponse is not text"` when the body cannot be
read, via the mapped error propagated by `?`); a JSON parse failure becomes
`FailToParseResponse`; `into_iter().next()` takes the head of the parsed
list, with an empty list becoming `Unexpected "Cannot find DNS record."`. -/
def get_arecord_detail (resp : Except String HttpResponse) :
    Except DnsRecordManagerError DnsRecord :=
  match resp with
  | .error e => .error (.RequestFail e)
  | .ok r =>
    if !r.success then
      match r.textResult with
      | none => .error (.Unexpected "Reponse is not text")
      | some body => .error (.Unexpected ("Error response from Godaddy: " ++ body))
    else
      match r.jsonResult with
      | .error e => .error (.FailToParseResponse e)
      | .ok dns_records =>
        match dns_records with
        | [] => .error (.Unexpected "Cannot find DNS record.")
        | dns_record :: _ => .ok dns_record

/-- Outcome of a call that, in Rust, returns `Result<(), DnsRecordManagerError>`
but can also panic: `panicked` models an `unwrap()` on an `Err`. -/
inductive CallOutcome where
  | ok
  | err (e : DnsRecordManagerError)
  | panicked
deriving DecidableEq, Repr

/-- Mirrors `update_arecord_detail` (lines 139-172), as a function of the
transport outcome of its PUT request. On a non-success status the code first
calls `response.text().await.unwrap()` inside a `println!` — a body-read
failure there panics — and then returns
`UpdateRecordError(anyhow!("{:?}", ""))`, whose message is the Debug
rendering of the empty string; the body it just printed is not carried. -/
def update_arecord_detail (new_ip : String) (resp : Except String HttpResponse) :
    CallOutcome :=
  let _ := new_ip
  match resp with
  | .error e => .err (.RequestFail e)
  | .ok r =>
    if !r.success then
      match r.textResult with
      | none => .panicked
      | some _ => .err (.UpdateRecordError "\"\"")
    else
      .ok

/-- Mirrors `get_current_public_ip` (lines 90-96): `public_ip::addr()`
yielding `some ip` gives `Ok(ip)`, `none` gives `UnableToGetPublicIp`. -/
def get_current_public_ip (addr : Option String) :
    Except DnsRecordManagerError String :=
  match addr with
  | some ip => .ok ip
  | none => .error .UnableToGetPublicIp

/-- The conceptual reconciliation outcome of one cycle, following the spec's
data model; in the code it is visible only as the `info!` log lines of `run`. -/
inductive ReconciliationOutcome where
  | NoChangeNeeded
  | Updated (oldIp newIp : String)
  | Failed (e : DnsRecordManagerError)
deriving DecidableEq, Repr

/-- The external world one call to `run` interacts with: the provider's reply
to the GET request (consulted only when no record is cached), the result of
public-IP resolution, and the provider's reply to the PUT request (consulted
only when an update is issued). -/
structure RunEnv where
  getResp : Except String HttpResponse
  ipResult : Option String
  updateResp : Except String HttpResponse
deriving DecidableEq, Repr

/-- Observable result of one `run` call: the final `current_record` state,
the returned `Result` (or panic), how many `get_arecord_detail` calls were
made, the arguments of the `update_arecord_detail` calls made (in order),
and the conceptual outcome (`none` when the cycle panicked). -/
structure RunResult where
  state : Option DnsRecord
  result : CallOutcome
  getCalls : Nat
  updateCalls : List String
  outcome : Option ReconciliationOutcome
deriving DecidableEq, Repr

/-- Mirrors `run` (lines 174-203), as a transition on the cached
`current_record`. Step order follows the source: when no record is cached,
one `get_arecord_detail` call is made and its failure aborts the cycle via
`?`; then the public IP is resolved (failure aborts); then
`current_record.as_ref().ok_or_else(...)` re-checks the cache (its failure
branch is the `Unexpected "Current record should be set"` error); on drift,
`update_arecord_detail` is called and only on its success is the cached
`data` field overwritten with the new IP. -/
def run (current_record : Option DnsRecord) (env : RunEnv) : RunResult :=
  let init : Except DnsRecordManagerError (Option DnsRecord) × Nat :=
    match current_record with
    | none =>
      (match get_arecord_detail env.getResp with
       | .error e => .error e
       | .ok record => .ok (some record), 1)
    | some r => (.ok (some r), 0)
  match init with
  | (.error e, g) => ⟨current_record, .err e, g, [], some (.Failed e)⟩
  | (.ok st, g) =>
    match get_current_public_ip env.ipResult with
    | .error e => ⟨st, .err e, g, [], some (.Failed e)⟩
    | .ok current_public_ip =>
      match st with
      | none =>
        ⟨st, .err (.Unexpected "Current record should be set"), g, [],
          some (.Failed (.Unexpected "Current record should be set"))⟩
      | some current_record_v =>
        if current_public_ip = current_record_v.data then
          ⟨st, .ok, g, [], some .NoChangeNeeded⟩
        else
          match update_arecord_detail current_public_ip env.updateResp with
          | .ok =>
            ⟨some ⟨current_public_ip⟩, .ok, g, [current_public_ip],
              some (.Updated current_record_v.data current_public_ip)⟩
          | .err e => ⟨st, .err e, g, [current_public_ip], some (.Failed e)⟩
          | .panicked => ⟨st, .panicked, g, [current_public_ip], none⟩

end GodaddyDynamicIp

namespace GodaddyDynamicIp

/-- Helper: with a cached record and a successfully resolved IP, `run`
reduces to the compare-and-maybe-update tail of the cycle. -/
theorem run_cached (rec : DnsRecord) (env : RunEnv) (ip : String)
    (hip : env.ipResult = some ip) :
    run (some rec) env =
      if ip = rec.data then ⟨some rec, .ok, 0, [], some .NoChangeNeeded⟩
      else
        match update_arecord_detail ip env.updateResp with
        | .ok => ⟨some ⟨ip⟩, .ok, 0, [ip], some (.Updated rec.data ip)⟩
        | .err e => ⟨some rec, .err e, 0, [ip], some (.Failed e)⟩
        | .panicked => ⟨some rec, .panicked, 0, [ip], none⟩ := by
  simp [run, get_current_public_ip, hip]

/-- Helper: with a cached record and failed IP resolution, `run` aborts. -/
theorem run_cached_noip (rec : DnsRecord) (env : RunEnv)
    (hip : env.ipResult = none) :
    run (some rec) env =
      ⟨some rec, .err .UnableToGetPublicIp, 0, [],
        some (.Failed .UnableToGetPublicIp)⟩ := by
  simp [run, get_current_public_ip, hip]

end GodaddyDynamicIp

namespace GodaddyDynamicIp

/-- Helper: with no cached record, a failing `get_arecord_detail` aborts the
cycle through `?` after exactly one read, leaving the cache empty. -/
theorem run_uncached_get_error (env : RunEnv) (e : DnsRecordManagerError)
    (hg : get_arecord_detail env.getResp = .error e) :
    run none env = ⟨none, .err e, 1, [], some (.Failed e)⟩ := by
  simp [run, hg]

/-- Helper: with no cached record, a successful `get_arecord_detail` caches
the fetched record and the cycle continues exactly as the cached cycle would,
except that one read was made. -/
theorem run_uncached_get_ok (env : RunEnv) (rec : DnsRecord)
    (hg : get_arecord_detail env.getResp = .ok rec) :
    run none env = { run (some rec) env with getCalls := 1 } := by
  rcases hip : env.ipResult with _ | ip
  · simp [run, hg, get_current_public_ip, hip]
  · by_cases h : ip = rec.data
    · simp [run, hg, get_current_public_ip, hip, h]
    · rcases hu : update_arecord_detail ip env.updateResp with _ | e | _ <;>
        simp [run, hg, get_current_public_ip, hip, h, hu]

/-- Helper: with no cached record, `run` always makes exactly one read. -/
theorem run_none_getCalls (env : RunEnv) : (run none env).getCalls = 1 := by
  rcases hg : get_arecord_detail env.getResp with e | rec
  · rw [run_uncached_get_error env e hg]
  · rw [run_uncached_get_ok env rec hg]

end GodaddyDynamicIp

namespace GodaddyDynamicIp

/-- A provider reply with a success status (text/json payloads unused). -/
def okReply : HttpResponse := ⟨true, none, .ok []⟩

/-- C2: for every string X, if the cached record's data equals X and the
resolved public IP equals X, then `run` performs zero calls to
`update_arecord_detail`, leaves the cached record unchanged, and completes
successfully with outcome `NoChangeNeeded`. -/
theorem run_noop_cycle (X : String) (env : RunEnv)
    (hip : env.ipResult = some X) :
    (run (some ⟨X⟩) env).updateCalls = [] ∧
    (run (some ⟨X⟩) env).state = some ⟨X⟩ ∧
    (run (some ⟨X⟩) env).result = .ok ∧
    (run (some ⟨X⟩) env).outcome = some .NoChangeNeeded := by
  rw [run_cached ⟨X⟩ env X hip]
  simp

/-- Witness for `run_noop_cycle` at X = "10.0.0.1". -/
theorem run_noop_cycle_witness :
    (run (some ⟨"10.0.0.1"⟩) ⟨.ok okReply, some "10.0.0.1", .ok okReply⟩).updateCalls = [] ∧
    (run (some ⟨"10.0.0.1"⟩) ⟨.ok okReply, some "10.0.0.1", .ok okReply⟩).state = some ⟨"10.0.0.1"⟩ ∧
    (run (some ⟨"10.0.0.1"⟩) ⟨.ok okReply, some "10.0.0.1", .ok okReply⟩).result = .ok ∧
    (run (some ⟨"10.0.0.1"⟩) ⟨.ok okReply, some "10.0.0.1", .ok okReply⟩).outcome =
      some .NoChangeNeeded :=
  run_noop_cycle "10.0.0.1" ⟨.ok okReply, some "10.0.0.1", .ok okReply⟩ rfl

/-- C4: with a cached record, failed public-IP resolution aborts the cycle
with `UnableToGetPublicIp`, with no read call, no update call, and the cached
record unchanged. -/
theorem run_resolver_failure_frame (rec : DnsRecord) (env : RunEnv)
    (hip : env.ipResult = none) :
    run (some rec) env =
      ⟨some rec, .err .UnableToGetPublicIp, 0, [],
        some (.Failed .UnableToGetPublicIp)⟩ :=
  run_cached_noip rec env hip

/-- Witness for `run_resolver_failure_frame` at a concrete cached record. -/
theorem run_resolver_failure_frame_witness :
    run (some ⟨"10.0.0.1"⟩) ⟨.ok okReply, none, .ok okReply⟩ =
      ⟨some ⟨"10.0.0.1"⟩, .err .UnableToGetPublicIp, 0, [],
        some (.Failed .UnableToGetPublicIp)⟩ :=
  run_resolver_failure_frame ⟨"10.0.0.1"⟩ ⟨.ok okReply, none, .ok okReply⟩ rfl

/-- C9: when the PUT receives a non-success status and the body cannot then
be read as text, `update_arecord_detail` panics (the `unwrap` on the
body-read result) instead of returning an error value. -/
theorem update_nonsuccess_body_panic :
    update_arecord_detail "203.0.113.5" (.ok ⟨false, none, .ok []⟩) = .panicked := rfl

end GodaddyDynamicIp

namespace GodaddyDynamicIp

/-- C5: the three `get_arecord_detail` failure paths — transport error, JSON
parse failure, and empty record collection — produce pairwise-distinct error
values: `RequestFail`, `FailToParseResponse`, and the `Unexpected "Cannot
find DNS record."` error that realizes the record-not-found kind. -/
theorem get_arecord_failure_kinds (e p : String) (r s : HttpResponse) :
    get_arecord_detail (.error e) = .error (.RequestFail e) ∧
    (r.success = true → r.jsonResult = .error p →
      get_arecord_detail (.ok r) = .error (.FailToParseResponse p)) ∧
    (s.success = true → s.jsonResult = .ok [] →
      get_arecord_detail (.ok s) = .error (.Unexpected "Cannot find DNS record.")) ∧
    DnsRecordManagerError.RequestFail e ≠ .FailToParseResponse p ∧
    DnsRecordManagerError.RequestFail e ≠ .Unexpected "Cannot find DNS record." ∧
    DnsRecordManagerError.FailToParseResponse p ≠ .Unexpected "Cannot find DNS record." := by
  refine ⟨rfl, ?_, ?_, by simp, by simp, by simp⟩
  · intro hs hj
    simp [get_arecord_detail, hs, hj]
  · intro hs hj
    simp [get_arecord_detail, hs, hj]

/-- Witness for `get_arecord_failure_kinds` at concrete failure scenarios. -/
theorem get_arecord_failure_kinds_witness :
    get_arecord_detail (.error "connect timeout") = .error (.RequestFail "connect timeout") ∧
    get_arecord_detail (.ok ⟨true, none, .error "invalid json"⟩) =
      .error (.FailToParseResponse "invalid json") ∧
    get_arecord_detail (.ok ⟨true, none, .ok []⟩) =
      .error (.Unexpected "Cannot find DNS record.") ∧
    DnsRecordManagerError.RequestFail "connect timeout" ≠
      .FailToParseResponse "invalid json" ∧
    DnsRecordManagerError.RequestFail "connect timeout" ≠
      .Unexpected "Cannot find DNS record." ∧
    DnsRecordManagerError.FailToParseResponse "invalid json" ≠
      .Unexpected "Cannot find DNS record." := by
  obtain ⟨h1, h2, h3, h4, h5, h6⟩ :=
    get_arecord_failure_kinds "connect timeout" "invalid json"
      ⟨true, none, .error "invalid json"⟩ ⟨true, none, .ok []⟩
  exact ⟨h1, h2 rfl rfl, h3 rfl rfl, h4, h5, h6⟩

/-- C6 counterexample: two different non-success response bodies yield
identical update errors, and that error's payload is the fixed two-character
string of an escaped empty Rust Debug string — so the failure value cannot
carry the provider's response body. -/
theorem update_rejected_ignores_body_cex :
    update_arecord_detail "203.0.113.5" (.ok ⟨false, some "rate limit exceeded", .ok []⟩) =
      update_arecord_detail "203.0.113.5" (.ok ⟨false, some "auth failure", .ok []⟩) ∧
    update_arecord_detail "203.0.113.5" (.ok ⟨false, some "rate limit exceeded", .ok []⟩) =
      .err (.UpdateRecordError "\"\"") ∧
    ("rate limit exceeded" : String) ≠ "auth failure" :=
  ⟨rfl, rfl, by decide⟩

/-- C6 amended: on a non-success status whose body can be read as text,
`update_arecord_detail` fails with an `UpdateRecordError` whose payload is
the constant Debug rendering of the empty string — the response body is
printed to stdout, not carried in the error. -/
theorem update_rejected_fixed_payload (new_ip body : String) (r : HttpResponse)
    (hs : r.success = false) (ht : r.textResult = some body) :
    update_arecord_detail new_ip (.ok r) = .err (.UpdateRecordError "\"\"") := by
  simp [update_arecord_detail, hs, ht]

/-- Witness for `update_rejected_fixed_payload` at a concrete rejection. -/
theorem update_rejected_fixed_payload_witness :
    update_arecord_detail "203.0.113.5" (.ok ⟨false, some "TOO_MANY_REQUESTS", .ok []⟩) =
      .err (.UpdateRecordError "\"\"") :=
  update_rejected_fixed_payload "203.0.113.5" "TOO_MANY_REQUESTS"
    ⟨false, some "TOO_MANY_REQUESTS", .ok []⟩ rfl rfl

/-- C7 counterexample: with all four variables set but `API_KEY` empty,
`GodaddyConfig::load` succeeds (returning the empty credential) instead of
failing as the claim requires. -/
theorem config_load_empty_value_cex :
    GodaddyConfig.load ⟨some "", some "secret", some "https://api.godaddy.com", some "example.com"⟩ =
      .ok ⟨"", "secret", "https://api.godaddy.com", "example.com"⟩ := rfl

/-- C7 amended: `GodaddyConfig::load` succeeds exactly when all four
environment variables are set, regardless of their values; only absence
(of any of them) produces `MissingEnvironmentVariables`. -/
theorem config_load_presence (env : EnvVars) :
    loadSucceeds env =
      (env.api_key.isSome && env.api_secret.isSome &&
        env.base_path.isSome && env.record_name.isSome) := by
  obtain ⟨k, s, p, n⟩ := env
  cases k <;> cases s <;> cases p <;> cases n <;> rfl

end GodaddyDynamicIp

namespace GodaddyDynamicIp

/-- C1: with cached data A and resolved IP B, A ≠ B, if the update call
fails with error e then `run` returns that error, the cached data still
equals A, and a subsequent cycle resolving B again attempts the write
(issues one update call with argument B) rather than skipping it. -/
theorem run_update_failure_preserves_cache (A B : String) (hAB : A ≠ B)
    (e : DnsRecordManagerError) (env env2 : RunEnv)
    (hip : env.ipResult = some B)
    (hupd : update_arecord_detail B env.updateResp = .err e)
    (hip2 : env2.ipResult = some B) :
    (run (some ⟨A⟩) env).result = .err e ∧
    (run (some ⟨A⟩) env).state = some ⟨A⟩ ∧
    (run ((run (some ⟨A⟩) env).state) env2).updateCalls = [B] := by
  have hBA : ¬ (B = A) := fun h => hAB h.symm
  have hst : (run (some ⟨A⟩) env).state = some ⟨A⟩ := by
    rw [run_cached ⟨A⟩ env B hip]
    simp [hBA, hupd]
  refine ⟨?_, hst, ?_⟩
  · rw [run_cached ⟨A⟩ env B hip]
    simp [hBA, hupd]
  · rw [hst, run_cached ⟨A⟩ env2 B hip2]
    rcases hu2 : update_arecord_detail B env2.updateResp with _ | e2 | _ <;>
      simp [hBA, hu2]

/-- Witness for `run_update_failure_preserves_cache` on a rejected update. -/
theorem run_update_failure_preserves_cache_witness :
    (run (some ⟨"10.0.0.1"⟩)
        ⟨.ok okReply, some "203.0.113.5", .ok ⟨false, some "denied", .ok []⟩⟩).result =
      .err (.UpdateRecordError "\"\"") ∧
    (run (some ⟨"10.0.0.1"⟩)
        ⟨.ok okReply, some "203.0.113.5", .ok ⟨false, some "denied", .ok []⟩⟩).state =
      some ⟨"10.0.0.1"⟩ ∧
    (run ((run (some ⟨"10.0.0.1"⟩)
        ⟨.ok okReply, some "203.0.113.5", .ok ⟨false, some "denied", .ok []⟩⟩).state)
        ⟨.ok okReply, some "203.0.113.5", .ok ⟨false, some "denied", .ok []⟩⟩).updateCalls =
      ["203.0.113.5"] :=
  run_update_failure_preserves_cache "10.0.0.1" "203.0.113.5" (by decide)
    (.UpdateRecordError "\"\"")
    ⟨.ok okReply, some "203.0.113.5", .ok ⟨false, some "denied", .ok []⟩⟩
    ⟨.ok okReply, some "203.0.113.5", .ok ⟨false, some "denied", .ok []⟩⟩
    rfl rfl rfl

/-- C3: with cached data A and resolved IP B, A ≠ B, `run` issues exactly
one update call, with argument B; if that call succeeds the cached data
becomes B and a following cycle resolving B performs no write and has
outcome `NoChangeNeeded`. -/
theorem run_drift_single_write (A B : String) (hAB : A ≠ B) (env env2 : RunEnv)
    (hip : env.ipResult = some B) (hip2 : env2.ipResult = some B) :
    (run (some ⟨A⟩) env).updateCalls = [B] ∧
    (update_arecord_detail B env.updateResp = .ok →
      (run (some ⟨A⟩) env).state = some ⟨B⟩ ∧
      (run ((run (some ⟨A⟩) env).state) env2).updateCalls = [] ∧
      (run ((run (some ⟨A⟩) env).state) env2).result = .ok ∧
      (run ((run (some ⟨A⟩) env).state) env2).outcome = some .NoChangeNeeded) := by
  have hBA : ¬ (B = A) := fun h => hAB h.symm
  constructor
  · rw [run_cached ⟨A⟩ env B hip]
    rcases hu : update_arecord_detail B env.updateResp with _ | e | _ <;>
      simp [hBA, hu]
  · intro hu
    have hst : (run (some ⟨A⟩) env).state = some ⟨B⟩ := by
      rw [run_cached ⟨A⟩ env B hip]
      simp [hBA, hu]
    refine ⟨hst, ?_, ?_, ?_⟩ <;>
      rw [hst, run_cached ⟨B⟩ env2 B hip2] <;> simp

/-- Witness for `run_drift_single_write` on an accepted update. -/
theorem run_drift_single_write_witness :
    (run (some ⟨"10.0.0.1"⟩)
        ⟨.ok okReply, some "203.0.113.5", .ok okReply⟩).updateCalls = ["203.0.113.5"] ∧
    (run (some ⟨"10.0.0.1"⟩)
        ⟨.ok okReply, some "203.0.113.5", .ok okReply⟩).state = some ⟨"203.0.113.5"⟩ ∧
    (run ((run (some ⟨"10.0.0.1"⟩)
        ⟨.ok okReply, some "203.0.113.5", .ok okReply⟩).state)
        ⟨.ok okReply, some "203.0.113.5", .ok okReply⟩).updateCalls = [] ∧
    (run ((run (some ⟨"10.0.0.1"⟩)
        ⟨.ok okReply, some "203.0.113.5", .ok okReply⟩).state)
        ⟨.ok okReply, some "203.0.113.5", .ok okReply⟩).result = .ok ∧
    (run ((run (some ⟨"10.0.0.1"⟩)
        ⟨.ok okReply, some "203.0.113.5", .ok okReply⟩).state)
        ⟨.ok okReply, some "203.0.113.5", .ok okReply⟩).outcome =
      some .NoChangeNeeded := by
  obtain ⟨h1, h2⟩ :=
    run_drift_single_write "10.0.0.1" "203.0.113.5" (by decide)
      ⟨.ok okReply, some "203.0.113.5", .ok okReply⟩
      ⟨.ok okReply, some "203.0.113.5", .ok okReply⟩ rfl rfl
  obtain ⟨h3, h4, h5, h6⟩ := h2 rfl
  exact ⟨h1, h3, h4, h5, h6⟩

end GodaddyDynamicIp

namespace GodaddyDynamicIp

/-- Helper: whenever a cached cycle returns `Ok`, the cache holds exactly the
IP resolved in that cycle. -/
theorem run_cached_ok_state (r : DnsRecord) (env : RunEnv)
    (h : (run (some r) env).result = .ok) :
    ∃ ip, env.ipResult = some ip ∧ (run (some r) env).state = some ⟨ip⟩ := by
  rcases hip : env.ipResult with _ | ip
  · rw [run_cached_noip r env hip] at h
    cases h
  · refine ⟨ip, rfl, ?_⟩
    rw [run_cached r env ip hip] at h ⊢
    by_cases he : ip = r.data
    · cases r
      simp_all
    · rcases hu : update_arecord_detail ip env.updateResp with _ | e | _ <;>
        simp [he, hu] at h ⊢

/-- Helper: a cycle starting from a cached record never empties the cache. -/
theorem run_cached_state_isSome (r : DnsRecord) (env : RunEnv) :
    (run (some r) env).state.isSome = true := by
  rcases hip : env.ipResult with _ | ip
  · rw [run_cached_noip r env hip]
    rfl
  · rw [run_cached r env ip hip]
    by_cases he : ip = r.data
    · simp [he]
    · rcases hu : update_arecord_detail ip env.updateResp with _ | e | _ <;>
        simp [he, hu]

/-- C8: with no cached record, `run` makes exactly one read before any
comparison (for every environment, including those whose IP resolution
fails); a successful read selects the first entry of the returned
collection; and when the collection is empty the cycle fails with the
record-not-found error, leaving the cache empty and making no update call. -/
theorem run_first_init (env : RunEnv) (r s : HttpResponse) (rec : DnsRecord)
    (rest : List DnsRecord) :
    (run none env).getCalls = 1 ∧
    (r.success = true → r.jsonResult = .ok (rec :: rest) →
      get_arecord_detail (.ok r) = .ok rec) ∧
    (env.getResp = .ok s → s.success = true → s.jsonResult = .ok [] →
      run none env =
        ⟨none, .err (.Unexpected "Cannot find DNS record."), 1, [],
          some (.Failed (.Unexpected "Cannot find DNS record."))⟩) := by
  refine ⟨run_none_getCalls env, ?_, ?_⟩
  · intro hs hj
    simp [get_arecord_detail, hs, hj]
  · intro hresp hs hj
    have hg : get_arecord_detail env.getResp =
        .error (.Unexpected "Cannot find DNS record.") := by
      rw [hresp]
      simp [get_arecord_detail, hs, hj]
    exact run_uncached_get_error env _ hg

/-- Witness for `run_first_init` at a concrete empty-collection read. -/
theorem run_first_init_witness :
    (run none ⟨.ok ⟨true, none, .ok []⟩, some "203.0.113.5", .ok okReply⟩).getCalls = 1 ∧
    get_arecord_detail (.ok ⟨true, none, .ok [⟨"10.0.0.1"⟩]⟩) = .ok ⟨"10.0.0.1"⟩ ∧
    run none ⟨.ok ⟨true, none, .ok []⟩, some "203.0.113.5", .ok okReply⟩ =
      ⟨none, .err (.Unexpected "Cannot find DNS record."), 1, [],
        some (.Failed (.Unexpected "Cannot find DNS record."))⟩ := by
  obtain ⟨h1, h2, h3⟩ :=
    run_first_init ⟨.ok ⟨true, none, .ok []⟩, some "203.0.113.5", .ok okReply⟩
      ⟨true, none, .ok [⟨"10.0.0.1"⟩]⟩ ⟨true, none, .ok []⟩ ⟨"10.0.0.1"⟩ []
  exact ⟨h1, h2 rfl rfl, h3 rfl rfl rfl⟩

/-- C10: whenever `run` returns `Ok`, the cache is `some` record whose data
equals the IP resolved during that same cycle; and once the cache is `some`,
no later `run` call ever resets it to `none`. -/
theorem run_ok_synced (st : Option DnsRecord) (rec : DnsRecord) (env : RunEnv) :
    ((run st env).result = .ok →
      ∃ ip, env.ipResult = some ip ∧ (run st env).state = some ⟨ip⟩) ∧
    (run (some rec) env).state.isSome = true := by
  refine ⟨?_, run_cached_state_isSome rec env⟩
  intro h
  rcases st with _ | r
  · rcases hg : get_arecord_detail env.getResp with e | r0
    · rw [run_uncached_get_error env e hg] at h
      cases h
    · rw [run_uncached_get_ok env r0 hg] at h ⊢
      obtain ⟨ip, hip, hstate⟩ := run_cached_ok_state r0 env h
      exact ⟨ip, hip, hstate⟩
  · exact run_cached_ok_state r env h

/-- Witness for `run_ok_synced` at a concrete no-drift cycle. -/
theorem run_ok_synced_witness :
    (∃ ip, (⟨.ok okReply, some "10.0.0.1", .ok okReply⟩ : RunEnv).ipResult = some ip ∧
      (run (some ⟨"10.0.0.1"⟩) ⟨.ok okReply, some "10.0.0.1", .ok okReply⟩).state =
        some ⟨ip⟩) ∧
    (run (some ⟨"10.0.0.1"⟩) ⟨.ok okReply, some "10.0.0.1", .ok okReply⟩).state.isSome =
      true := by
  obtain ⟨h1, h2⟩ :=
    run_ok_synced (some ⟨"10.0.0.1"⟩) ⟨"10.0.0.1"⟩
      ⟨.ok okReply, some "10.0.0.1", .ok okReply⟩
  exact ⟨h1 rfl, h2⟩

end GodaddyDynamicIp
